import Mathlib

/-!
Verification of the sm-proc statement-extraction core: a shallow embedding of
the CBA and ANZ text parsers, the AI response validator and retry loop, and the
categorisation engine, translated from `src/c/sm-proc`.

C strings are modelled as `List Char` (no interior NUL bytes); reading a
position at or past the end of a string yields the terminating `'\x00'`.
C `double` values are modelled as exact rationals built with `Rat.divInt`: the
source compares amounts only against zero and the claims only against decimal
constants, and the sign and decimal value of such literals survive the
rounding to `double`.

The C scanning loops advance a cursor by at least one position per iteration,
so each is embedded as a structurally recursive function whose fuel argument
is the exact number of positions left (`length - cursor` shaped); when the
fuel runs out the cursor is at or past the end of the buffer and the loop
guard `*p` would have stopped the C loop at the same cursor.
-/

namespace SmProc

/-- C `isspace` in the default locale. -/
def cIsSpace (c : Char) : Bool :=
  c = ' ' || c = '\t' || c = '\n' || c = '\x0b' || c = '\x0c' || c = '\r'

/-- C `isdigit`. -/
def cIsDigit (c : Char) : Bool := '0' ≤ c && c ≤ '9'

/-- Read index `i` of a NUL-terminated C string; out of range reads the NUL. -/
def charAt (cs : List Char) (i : Nat) : Char := cs.getD i '\x00'

/-- The substring of `cs` from index `a` (inclusive) to `b` (exclusive). -/
def slice (cs : List Char) (a b : Nat) : List Char := (cs.drop a).take (b - a)

/-- Fuelled forward scan; fuel `cs.length - i` makes it total. -/
def skipFwdAux (p : Char → Bool) (cs : List Char) : Nat → Nat → Nat
  | 0, i => i
  | fuel + 1, i =>
    if i < cs.length && p (charAt cs i) then skipFwdAux p cs fuel (i + 1) else i

/-- Forward scan: the first index `≥ i` whose character fails `p` (a C loop
`while (*q && p(*q)) q++`, the end of the string stopping the scan). -/
def skipFwd (p : Char → Bool) (cs : List Char) (i : Nat) : Nat :=
  skipFwdAux p cs (cs.length - i) i

/-- Backward scan testing the character before the cursor:
`while (q > lo && p(*(q-1))) q--`. -/
def scanBackWhile (p : Char → Bool) (cs : List Char) (lo : Nat) : Nat → Nat
  | 0 => 0
  | i + 1 =>
    if lo < i + 1 && p (charAt cs i) then scanBackWhile p cs lo i else i + 1

/-- Backward scan testing the character at the cursor:
`while (q > lo && p(*q)) q--`. -/
def scanBackAtWhile (p : Char → Bool) (cs : List Char) (lo : Nat) : Nat → Nat
  | 0 => 0
  | i + 1 =>
    if lo < i + 1 && p (charAt cs (i + 1)) then scanBackAtWhile p cs lo i else i + 1

/-- Fuelled body of `strstr`; fuel `cs.length + 1 - i` covers every start
position. -/
def findSubFromAux (cs pat : List Char) : Nat → Nat → Option Nat
  | 0, _ => none
  | fuel + 1, i =>
    if i + pat.length ≤ cs.length then
      if pat.isPrefixOf (cs.drop i) then some i else findSubFromAux cs pat fuel (i + 1)
    else none

/-- Model of `strstr` searching from index `i`: the first index `≥ i` where `pat`
occurs in `cs`. -/
def findSubFrom (cs pat : List Char) (i : Nat) : Option Nat :=
  findSubFromAux cs pat (cs.length + 1 - i) i

/-- Model of `strstr`. -/
def findSub (cs pat : List Char) : Option Nat := findSubFrom cs pat 0

/-- Model of `strchr` from index `i` for a non-NUL character. -/
def findCharFrom (cs : List Char) (c : Char) (i : Nat) : Option Nat :=
  findSubFrom cs [c] i

/-- Model of `strrchr` for a non-NUL character. -/
def strrchrIdx : List Char → Char → Option Nat
  | [], _ => none
  | a :: rest, c =>
    match strrchrIdx rest c with
    | some i => some (i + 1)
    | none => if a = c then some 0 else none

/-- The value of a digit run, most significant first. -/
def natOfDigits (ds : List Char) : Nat :=
  ds.foldl (fun a c => a * 10 + (c.toNat - '0'.toNat)) 0

/-- Model of `sscanf` `%d`: skip whitespace, then an optional sign and a non-empty digit
run.  Returns the value and the index one past the last digit consumed. -/
def scanInt (cs : List Char) (i : Nat) : Option (Int × Nat) :=
  let j := skipFwd cIsSpace cs i
  let s := if charAt cs j = '-' || charAt cs j = '+' then j + 1 else j
  let e := skipFwd cIsDigit cs s
  if e = s then none
  else
    let v : Int := Int.ofNat (natOfDigits (slice cs s e))
    some (if charAt cs j = '-' then -v else v, e)

/-- Model of `sscanf` `%s` with no field width (used for `%*s`): skip whitespace, then a
maximal non-empty run of non-whitespace characters; fails only at end of
input. -/
def scanTok (cs : List Char) (i : Nat) : Option (List Char × Nat) :=
  let j := skipFwd cIsSpace cs i
  if j < cs.length then
    let e := skipFwd (fun c => !cIsSpace c) cs j
    some (slice cs j e, e)
  else none

/-- Model of `sscanf` `%Ns`: like `%s` but consuming at most `maxLen` characters. -/
def scanStr (maxLen : Nat) (cs : List Char) (i : Nat) : Option (List Char × Nat) :=
  let j := skipFwd cIsSpace cs i
  if j < cs.length then
    let e := min (skipFwd (fun c => !cIsSpace c) cs j) (j + maxLen)
    some (slice cs j e, e)
  else none

/-- Output of `%0Wd` on a non-negative value: decimal digits left-padded with zeros. -/
def zeroPad (w n : Nat) : List Char :=
  let ds := Nat.toDigits 10 n
  List.replicate (w - ds.length) '0' ++ ds

/-- Output of `snprintf(buf, 11, "%04d-%02d-%02d", y, m, d)`: the 11-byte buffer keeps at
most 10 characters of output. -/
def isoDateString (y m d : Nat) : List Char :=
  (zeroPad 4 y ++ '-' :: zeroPad 2 m ++ '-' :: zeroPad 2 d).take 10

/-- The C in-place trailing trim `while (q > buf && isspace(*q)) *q-- = 0`:
the first character is never removed, even when it is whitespace. -/
def trimTrailingKeepFirst : List Char → List Char
  | [] => []
  | c :: rest => c :: (rest.reverse.dropWhile cIsSpace).reverse

/-- ASCII `tolower` over a string, as used by `strcasecmp`. -/
def lowerList (cs : List Char) : List Char := cs.map Char.toLower

/-- Model of `sscanf` `%lf` on decimal input: optional sign, digit run, optional
fractional part, optional exponent; fails when no digit is consumed. -/
def parseDouble (cs : List Char) : Option Rat :=
  let i := skipFwd cIsSpace cs 0
  let s := if charAt cs i = '-' || charAt cs i = '+' then i + 1 else i
  let ie := skipFwd cIsDigit cs s
  let fr := if charAt cs ie = '.' then (ie + 1, skipFwd cIsDigit cs (ie + 1)) else (ie, ie)
  if ie = s ∧ fr.2 = fr.1 then none
  else
    let mant : Nat := natOfDigits (slice cs s ie ++ slice cs fr.1 fr.2)
    let fracLen : Nat := fr.2 - fr.1
    let ex : Int :=
      if charAt cs fr.2 = 'e' || charAt cs fr.2 = 'E' then
        let es :=
          if charAt cs (fr.2 + 1) = '-' || charAt cs (fr.2 + 1) = '+' then fr.2 + 2 else fr.2 + 1
        let ee := skipFwd cIsDigit cs es
        if ee = es then 0
        else if charAt cs (fr.2 + 1) = '-' then -Int.ofNat (natOfDigits (slice cs es ee))
        else Int.ofNat (natOfDigits (slice cs es ee))
      else 0
    let shift : Int := ex - Int.ofNat fracLen
    let num : Int := if charAt cs i = '-' then -Int.ofNat mant else Int.ofNat mant
    some (if 0 ≤ shift then Rat.divInt (num * Int.ofNat (10 ^ shift.toNat)) 1
          else Rat.divInt num (Int.ofNat (10 ^ (-shift).toNat)))

/-! ## Data model (`transaction.h`) -/

/-- The `Transaction` record: nullable strings are `Option (List Char)`. -/
structure Transaction where
  date : Option (List Char)
  description : Option (List Char)
  debit : Rat
  credit : Rat
  category : Option (List Char)
deriving DecidableEq, Repr

/-- The `ParseResult` record; `errorMessage = none` is success. -/
structure ParseResult where
  accountNumber : Option (List Char)
  statementPeriod : Option (List Char)
  transactions : List Transaction
  errorMessage : Option (List Char)
deriving DecidableEq, Repr

/-! ## CBA text parser (`parsers/cba_parser.c`)

`should_use_ai_parsing` consults the global config; with no configuration the
parser takes the text path modelled here, and with AI configured
`parse_cba_statement` logs a warning and falls through to the same text
path. -/

/-- One round of the field-skipping loops (`skip current field`, then `skip
whitespace to next field`); at end of input both scans are identity, matching
the C loops' `*p` guard. -/
def skipField (cs : List Char) (i : Nat) : Nat :=
  skipFwd cIsSpace cs (skipFwd (fun c => !cIsSpace c) cs i)

/-- Embedding of `extract_statement_period`: find the label, skip whitespace and `':'`,
take the rest of the line, trim trailing whitespace. -/
def extract_statement_period (content : List Char) : Option (List Char) := do
  let f ← findSub content ("Statement Period".toList)
  let start := skipFwd (fun c => cIsSpace c || c = ':') content (f + 16)
  let e := skipFwd (fun c => !(c = '\n') && !(c = '\r')) content start
  if e - start = 0 then none
  else some (trimTrailingKeepFirst (slice content start e))

/-- The end-of-value scan shared by the account-number extractors: a
whitespace run followed by a `digitLike` character is internal to the value;
any other whitespace (or end of line) terminates it.  Every iteration moves
the cursor forward, so fuel `cs.length - start` suffices exactly. -/
def acctValueEndAux (digitLike : Char → Bool) (cs : List Char) : Nat → Nat → Nat
  | 0, i => i
  | fuel + 1, i =>
    if i < cs.length then
      if charAt cs i = '\n' ∨ charAt cs i = '\r' then i
      else if cIsSpace (charAt cs i) then
        let t := skipFwd cIsSpace cs i
        if t < cs.length ∧ digitLike (charAt cs t) then acctValueEndAux digitLike cs fuel t
        else i
      else acctValueEndAux digitLike cs fuel (i + 1)
    else i

/-- The end of the account-number value starting at `i`. -/
def acctValueEnd (digitLike : Char → Bool) (cs : List Char) (i : Nat) : Nat :=
  acctValueEndAux digitLike cs (cs.length - i) i

/-- Embedding of `extract_account_number` for the CBA label `"Account Number"`. -/
def extract_account_number (content : List Char) : Option (List Char) := do
  let f ← findSub content ("Account Number".toList)
  let start := skipFwd (fun c => cIsSpace c || c = ':') content (f + 14)
  let e := acctValueEnd cIsDigit content start
  if e - start = 0 then none
  else some (trimTrailingKeepFirst (slice content start e))

/-- Comparison by `strcasecmp` of the `"DD MMM"` month token against the month table,
returning the 1-based month. -/
def monthNum (tok : List Char) : Option Nat :=
  let names := ["Jan", "Feb", "Mar", "Apr", "May", "Jun",
                "Jul", "Aug", "Sep", "Oct", "Nov", "Dec"].map String.toList
  let idx := names.findIdx (fun m => lowerList m == lowerList tok)
  if idx < names.length then some (idx + 1) else none

/-- Model of `sscanf(period, "%*d %*s %d - %*d %*s %d", &start_year, &end_year)`: a
conversion that never matches leaves the corresponding 2025 default in place,
and the literal `'-'` must match after optional whitespace. -/
def scanPeriodYears (p : List Char) : Int × Int :=
  match scanInt p 0 with
  | none => (2025, 2025)
  | some (_, i1) =>
    match scanTok p i1 with
    | none => (2025, 2025)
    | some (_, i2) =>
      match scanInt p i2 with
      | none => (2025, 2025)
      | some (sy, i3) =>
        let j := skipFwd cIsSpace p i3
        if charAt p j = '-' then
          match scanInt p (j + 1) with
          | none => (sy, 2025)
          | some (_, i4) =>
            match scanTok p i4 with
            | none => (sy, 2025)
            | some (_, i5) =>
              match scanInt p i5 with
              | none => (sy, 2025)
              | some (ey, _) => (sy, ey)
        else (sy, 2025)

/-- The `(start_year, end_year)` pair seen by `parse_cba_date`: 2025 defaults
when there is no statement period. -/
def periodYears : Option (List Char) → Int × Int
  | none => (2025, 2025)
  | some p => scanPeriodYears p

/-- Embedding of `parse_cba_date`: `"DD MMM"` plus the statement period give `(year, month,
day)`; the ISO string is `isoDateString`.  The year is the period's end year
exactly when the month is in the first half of the year and the period's two
years differ. -/
def parse_cba_date (dateStr : List Char) (statementPeriod : Option (List Char)) :
    Option (Int × Nat × Int) :=
  match scanInt dateStr 0 with
  | none => none
  | some (day, i) =>
    match scanStr 9 dateStr i with
    | none => none
    | some (monthTok, _) =>
      match monthNum monthTok with
      | none => none
      | some month =>
        let py := periodYears statementPeriod
        let year := if month ≤ 6 ∧ py.1 ≠ py.2 then py.2 else py.1
        if 1 ≤ day ∧ day ≤ 31 ∧ 1 ≤ month ∧ month ≤ 12 ∧ 1900 ≤ year then
          some (year, month, day)
        else none

/-- One step of the cleaning loop of `parse_cba_amount` (`acc` holds the
emitted characters in reverse). -/
def cleanAmountStep (acc : List Char) (c : Char) : List Char :=
  if c = ',' ∨ c = '$' then acc
  else if c = ' ' ∧ acc.headD '\x00' = ' ' then acc
  else c :: acc

/-- The cleaning loop of `parse_cba_amount`: drop `,` and `$`, collapse space
runs; the 100-byte buffer keeps at most 99 characters, and the loop stops
copying once it is full. -/
def cleanCbaAmount (cs : List Char) : List Char :=
  (cs.foldl cleanAmountStep []).reverse.take 99

/-- Embedding of `parse_cba_amount`: clean, trim, `sscanf("%lf")`.  The C writes the value
to `*credit` and leaves `*debit` at zero; both call sites read only
`temp_credit`, so the model returns that single value. -/
def parse_cba_amount (amountStr : List Char) : Option Rat :=
  let t := trimTrailingKeepFirst ((cleanCbaAmount amountStr).dropWhile cIsSpace)
  if t = [] then none else parseDouble t

/-- The substring `" CR"`, the balance anchor of `process_cba_transaction_line`. -/
def spaceCR : List Char := [' ', 'C', 'R']

/-- The substring `" ("`, the parenthetical-debit anchor. -/
def spaceParen : List Char := [' ', '(']

/-- The backward scan for a bare-numeral debit ending at `debitEnd` (shared by
the `" ("` branch and the end-of-amounts branch of
`process_cba_transaction_line`).  Returns the debit value and the updated
`amounts_end`; when no digit run is found both stay unchanged. -/
def cbaDebitScan (line : List Char) (descStart debitEnd amountsEnd : Nat) : Rat × Nat :=
  let debitStart :=
    scanBackWhile (fun c => cIsDigit c || c == ',' || c == '.') line descStart debitEnd
  if debitStart < debitEnd ∧ cIsDigit (charAt line debitStart) then
    let len := debitEnd - debitStart
    let deb := if len < 49 then (parse_cba_amount (slice line debitStart debitEnd)).getD 0 else 0
    (deb, scanBackWhile cIsSpace line descStart debitStart)
  else (0, amountsEnd)

/-- The credit search of `process_cba_transaction_line`: the last `'$'` before
`amountsEnd` that is directly followed by a digit.  `strchr` finds the `'$'`
at or after the cursor, so each iteration advances the cursor and fuel
`amountsEnd - searchPos` suffices exactly; at fuel 0 the loop guard
`search_pos < amounts_end` has failed. -/
def cbaFindCreditPosAux (line : List Char) (amountsEnd : Nat) :
    Nat → Nat → Option Nat → Option Nat
  | 0, _, best => best
  | fuel + 1, searchPos, best =>
    if searchPos < amountsEnd then
      match findCharFrom line '$' searchPos with
      | none => best
      | some dollar =>
        if amountsEnd ≤ dollar then best
        else
          cbaFindCreditPosAux line amountsEnd fuel (dollar + 1)
            (if cIsDigit (charAt line (dollar + 1)) then some dollar else best)
    else best

/-- The credit-position search starting at `descStart`. -/
def cbaFindCreditPos (line : List Char) (amountsEnd searchPos : Nat) : Option Nat :=
  cbaFindCreditPosAux line amountsEnd (amountsEnd - searchPos) searchPos none

/-- The forward scan over the credit numeral:
`while (*q && q < amounts_end && (isdigit(*q) || *q==',' || *q=='.')) q++`. -/
def creditScanFwdAux (line : List Char) (amountsEnd : Nat) : Nat → Nat → Nat
  | 0, i => i
  | fuel + 1, i =>
    if i < line.length && decide (i < amountsEnd) &&
        (cIsDigit (charAt line i) || charAt line i == ',' || charAt line i == '.') then
      creditScanFwdAux line amountsEnd fuel (i + 1)
    else i

/-- The end of the credit numeral starting at `i`. -/
def creditScanFwd (line : List Char) (amountsEnd i : Nat) : Nat :=
  creditScanFwdAux line amountsEnd (line.length - i) i

/-- Embedding of `process_cba_transaction_line`: returns the transaction appended to the
result, or `none` when the line is discarded.  The statement period is the one
already stored in the `ParseResult`. -/
def process_cba_transaction_line (line : List Char) (statementPeriod : Option (List Char)) :
    Option Transaction :=
  match scanInt line 0 with
  | none => none
  | some (day, i0) =>
    match scanStr 9 line i0 with
    | none => none
    | some (monthTok, _) =>
      -- snprintf(date_str, 20, "%d %s", day, month_str), truncated to 19 bytes
      let dayDigits : List Char :=
        if day < 0 then '-' :: Nat.toDigits 10 day.natAbs else Nat.toDigits 10 day.toNat
      let dateStr := (dayDigits ++ ' ' :: monthTok).take 19
      match parse_cba_date dateStr statementPeriod with
      | none => none
      | some (y, m, d) =>
        let isoDate := isoDateString y.toNat m d.toNat
        let descStart := skipField line (skipField line 0)
        match findSub line spaceCR with
        | none => none
        | some balancePos =>
          let balanceDollar := scanBackAtWhile (fun c => !(c = '$')) line 0 balancePos
          let amountsEnd0 := scanBackWhile cIsSpace line descStart balanceDollar
          let debScan :=
            match findSub line spaceParen with
            | some dp =>
              if dp < amountsEnd0 then cbaDebitScan line descStart dp amountsEnd0
              else cbaDebitScan line descStart amountsEnd0 amountsEnd0
            | none => cbaDebitScan line descStart amountsEnd0 amountsEnd0
          let debit := debScan.1
          let amountsEnd1 := debScan.2
          let credScan :=
            match cbaFindCreditPos line amountsEnd1 descStart with
            | some cp =>
              if cp < amountsEnd1 then
                let creditEnd := creditScanFwd line amountsEnd1 (cp + 1)
                let len := creditEnd - cp
                let cv :=
                  if 0 < len ∧ len < 49 then (parse_cba_amount (slice line cp creditEnd)).getD 0
                  else 0
                (cv, scanBackWhile cIsSpace line descStart cp)
              else ((0 : Rat), amountsEnd1)
            | none => ((0 : Rat), amountsEnd1)
          let credit := credScan.1
          let amountsEnd2 := credScan.2
          let descLen := amountsEnd2 - descStart
          let description :=
            if 0 < descLen ∧ descLen < 499 then
              trimTrailingKeepFirst (slice line descStart amountsEnd2)
            else []
          if description ≠ [] ∧ ((0 : Rat) < debit ∨ (0 : Rat) < credit) then
            some { date := some isoDate, description := some description,
                   debit := debit, credit := credit, category := none }
          else none

/-- The transaction-start test of the `parse_cba_statement` loop:
`sscanf(line, "%d %9s", ...) == 2 && day >= 1 && day <= 31`. -/
def cbaStartsTxn (line : List Char) : Bool :=
  match scanInt line 0 with
  | none => false
  | some (day, i) =>
    match scanStr 9 line i with
    | none => false
    | some _ => 1 ≤ day && day ≤ 31

/-- Model of `strtok(content, "\n\r")`: the non-empty maximal runs between newline
characters. -/
def splitLines (cs : List Char) : List (List Char) :=
  (cs.splitOnP (fun c => c = '\n' || c = '\r')).filter (· ≠ [])

/-- The accumulation loop of `parse_cba_statement`: a date-led line starts a
transaction (processing the previous one), any other line continues the
current one with a space separator, and the final accumulation is processed at
end of input. -/
def cbaLoop (statementPeriod : Option (List Char)) :
    List (List Char) → Option (List Char) → List Transaction → List Transaction
  | [], current, acc =>
    match current with
    | some cur => acc ++ (process_cba_transaction_line cur statementPeriod).toList
    | none => acc
  | l :: rest, current, acc =>
    let l' := l.dropWhile cIsSpace
    if l' = [] then cbaLoop statementPeriod rest current acc
    else if cbaStartsTxn l' then
      let acc' := acc ++ (current.bind (process_cba_transaction_line · statementPeriod)).toList
      cbaLoop statementPeriod rest (some l') acc'
    else
      match current with
      | some cur => cbaLoop statementPeriod rest (some (cur ++ ' ' :: l')) acc
      | none => cbaLoop statementPeriod rest none acc

/-- Embedding of `parse_cba_statement`: `NULL` content is the caller-contract failure; any
other content produces a `ParseResult` with no error (allocation is assumed to
succeed, so `set_parse_result_error` is never reached). -/
def parse_cba_statement (content : Option (List Char)) : Option ParseResult :=
  match content with
  | none => none
  | some cs =>
    let period := extract_statement_period cs
    some { accountNumber := extract_account_number cs
           statementPeriod := period
           transactions := cbaLoop period (splitLines cs) none []
           errorMessage := none }

/-! ## ANZ text parser (`parsers/anz_parser.c`) -/

/-- Embedding of `extract_anz_account_number` for the label `"ACCOUNT NUMBER:"`; internal
whitespace is accepted before digits or `'-'`. -/
def extract_anz_account_number (content : List Char) : Option (List Char) := do
  let f ← findSub content ("ACCOUNT NUMBER:".toList)
  let start := skipFwd cIsSpace content (f + 15)
  let e := acctValueEnd (fun c => cIsDigit c || c == '-') content start
  if e - start = 0 then none
  else some (trimTrailingKeepFirst (slice content start e))

/-- Model of `sscanf(s, "%d/%d/%d", ...)`: each literal `'/'` must match the character
directly after the previous digit run. -/
def scanAnzTriple (cs : List Char) : Option (Int × Int × Int) := do
  let (d, i1) ← scanInt cs 0
  if charAt cs i1 = '/' then
    let (m, i2) ← scanInt cs (i1 + 1)
    if charAt cs i2 = '/' then
      let (y, _) ← scanInt cs (i2 + 1)
      pure (d, m, y)
    else none
  else none

/-- The shared range validation `day 1..31, month 1..12, year ≥ 1900`. -/
def anzDateOk (d m y : Int) : Bool :=
  1 ≤ d && d ≤ 31 && 1 ≤ m && m ≤ 12 && 1900 ≤ y

/-- Embedding of `parse_anz_date`: `DD/MM/YYYY` to the ISO string. -/
def parse_anz_date (cs : List Char) : Option (List Char) := do
  let (d, m, y) ← scanAnzTriple cs
  if anzDateOk d m y then some (isoDateString y.toNat m.toNat d.toNat) else none

/-- Embedding of `is_anz_transaction_line`. -/
def is_anz_transaction_line (line : List Char) : Bool :=
  match scanAnzTriple (line.dropWhile cIsSpace) with
  | some (d, m, y) => anzDateOk d m y
  | none => false

/-- The cleaning loop of `parse_anz_amount` (`acc` in reverse): drop `,` and
`$`, stop at `'C'` followed by `'R'` in the raw input (the CR credit suffix),
collapse space runs, and stop copying after 99 emitted characters. -/
def anzCleanAux : List Char → List Char → List Char × Bool
  | [], acc => (acc.reverse, false)
  | c :: rest, acc =>
    if 99 ≤ acc.length then (acc.reverse, false)
    else if c = ',' ∨ c = '$' then anzCleanAux rest acc
    else if c = 'C' ∧ charAt rest 0 = 'R' then (acc.reverse, true)
    else if c = ' ' ∧ acc.headD '\x00' = ' ' then anzCleanAux rest acc
    else anzCleanAux rest (c :: acc)

/-- Embedding of `parse_anz_amount`: returns `(debit, credit)`, the CR suffix selecting the
credit side. -/
def parse_anz_amount (amountStr : List Char) : Option (Rat × Rat) :=
  let cl := anzCleanAux amountStr []
  match parseDouble cl.1 with
  | none => none
  | some amount => some (if cl.2 then ((0 : Rat), amount) else (amount, (0 : Rat)))

/-- The length-extension loop over the transaction-amount token:
`while (start + len < balance_start && !isspace(start[len])) len++`; fuel
`balanceStart - (tas + len)` is the exact number of loop entries left. -/
def anzExtendLenAux (cs : List Char) (tas balanceStart : Nat) : Nat → Nat → Nat
  | 0, len => len
  | fuel + 1, len =>
    if tas + len < balanceStart ∧ ¬cIsSpace (charAt cs (tas + len)) then
      anzExtendLenAux cs tas balanceStart fuel (len + 1)
    else len

/-- The extended transaction-amount length. -/
def anzExtendLen (cs : List Char) (tas balanceStart len : Nat) : Nat :=
  anzExtendLenAux cs tas balanceStart (balanceStart - (tas + len)) len

/-- Model of `sscanf(line, "%14s %14s %9s", processed_date, transaction_date, card)`. -/
def anzScan3 (l : List Char) : Option (List Char × List Char × List Char × Nat) := do
  let (pd, i1) ← scanStr 14 l 0
  let (td, i2) ← scanStr 14 l i1
  let (card, i3) ← scanStr 9 l i2
  pure (pd, td, card, i3)

/-- The field extraction of `process_anz_transaction_line` on the
whitespace-trimmed line: the two leading date tokens, the transaction-amount
string (the token around the `'$'` found scanning left from the balance), and
the description between the third field and that amount.  The C computes
`balance_start - 1` as a raw pointer; the saturating subtraction used here
matches it whenever the last `'$'` is not inside the line's first token (on
other lines the C reads before the buffer, which no claim exercises). -/
def anzFields (l : List Char) :
    Option (List Char × List Char × List Char × List Char) :=
  match anzScan3 l with
  | none => none
  | some (pd, td, _card, _) =>
    match strrchrIdx l '$' with
    | none => none
    | some lastDollar =>
      let balanceStart := scanBackWhile (fun c => !cIsSpace c) l 0 lastDollar
      let tae1 := scanBackAtWhile cIsSpace l 0 (balanceStart - 1)
      let tae2 :=
        if charAt l tae1 ≠ '$' ∧ 0 < tae1 then scanBackAtWhile (fun c => !(c = '$')) l 0 tae1
        else tae1
      if charAt l tae2 = '$' then
        let tas := scanBackWhile (fun c => !cIsSpace c) l 0 tae2
        let len := anzExtendLen l tas balanceStart (tae2 - tas + 1)
        let amountStr := if len < 49 then trimTrailingKeepFirst (slice l tas (tas + len)) else []
        let p3 := skipField l (skipField l (skipField l 0))
        let desc :=
          if p3 < tas ∧ 0 < tas - p3 ∧ tas - p3 < 499 then
            trimTrailingKeepFirst (slice l p3 tas)
          else []
        some (pd, td, amountStr, desc)
      else none

/-- The note `" [Txn Date: %s]"`, appended when the two date tokens differ.  The
600-byte `snprintf` buffer cannot truncate: the description is under 499 bytes
and the date token at most 14. -/
def anzTxnDateNote (td : List Char) : List Char :=
  " [Txn Date: ".toList ++ td ++ [']']

/-- Embedding of `process_anz_transaction_line`: the emitted transaction, or `none` when
the line is discarded (scan failure, no amount, or invalid processed date). -/
def process_anz_transaction_line (line0 : List Char) : Option Transaction :=
  if line0.dropWhile cIsSpace = [] then none
  else
    match anzFields (line0.dropWhile cIsSpace) with
    | none => none
    | some (pd, td, amountStr, desc) =>
      match parse_anz_amount amountStr with
      | none => none
      | some dc =>
        match parse_anz_date pd with
        | none => none
        | some iso =>
          some { date := some iso,
                 description := some (if pd ≠ td then desc ++ anzTxnDateNote td else desc),
                 debit := dc.1, credit := dc.2, category := none }

/-- The transaction fold of `parse_anz_statement`. -/
def anzFoldStep (acc : List Transaction) (l : List Char) : List Transaction :=
  if is_anz_transaction_line l then acc ++ (process_anz_transaction_line l).toList
  else acc

/-- Embedding of `parse_anz_statement`: `NULL` content is the only failure; every line
passing `is_anz_transaction_line` is processed in order. -/
def parse_anz_statement (content : Option (List Char)) : Option ParseResult :=
  match content with
  | none => none
  | some cs =>
    some { accountNumber := extract_anz_account_number cs
           statementPeriod := none
           transactions := (splitLines cs).foldl anzFoldStep []
           errorMessage := none }

/-! ## AI response validation (`ai/ai_service.c`)

The validator receives the already-parsed JSON value; a response body cJSON
cannot parse at all is rejected before these checks run. -/

/-- Parsed JSON values as cJSON represents them. -/
inductive JVal where
  | null
  | jbool (b : Bool)
  | num (q : Rat)
  | str (s : List Char)
  | arr (xs : List JVal)
  | obj (fields : List (List Char × JVal))

/-- Model of `cJSON_GetObjectItem`: case-insensitive lookup of the first matching key;
`NULL` on a non-object. -/
def jsonLookup : JVal → List Char → Option JVal
  | .obj fields, key => (fields.find? (fun f => lowerList f.1 == lowerList key)).map Prod.snd
  | _, _ => none

/-- Embedding of `is_valid_iso_date`: length exactly 10 and the anchored pattern
`[0-9]{4}-[0-9]{2}-[0-9]{2}`. -/
def is_valid_iso_date (s : List Char) : Bool :=
  match s with
  | [a, b, c, d, e, f, g, h, i, j] =>
    cIsDigit a && cIsDigit b && cIsDigit c && cIsDigit d && e == '-' &&
    cIsDigit f && cIsDigit g && h == '-' && cIsDigit i && cIsDigit j
  | _ => false

/-- Embedding of `is_valid_amount`. -/
def is_valid_amount (q : Rat) : Bool := 0 ≤ q

/-- The per-transaction checks of `validate_cba_json_response`: all five
fields present; `date` a string of ISO shape; `description` a string; `debit`
and `credit` rejected only when they are negative numbers; `balance` a
non-negative number. -/
def validateCbaTransactionEntry (t : JVal) : Bool :=
  let date := jsonLookup t ("date".toList)
  let description := jsonLookup t ("description".toList)
  let debit := jsonLookup t ("debit".toList)
  let credit := jsonLookup t ("credit".toList)
  let balance := jsonLookup t ("balance".toList)
  date.isSome && description.isSome && debit.isSome && credit.isSome && balance.isSome &&
  (match date with | some (.str s) => is_valid_iso_date s | _ => false) &&
  (match description with | some (.str _) => true | _ => false) &&
  (match debit with | some (.num q) => is_valid_amount q | _ => true) &&
  (match credit with | some (.num q) => is_valid_amount q | _ => true) &&
  (match balance with | some (.num q) => is_valid_amount q | _ => false)

/-- Embedding of `validate_cba_json_response` on the parsed value; `true` is the C's 0. -/
def validate_cba_json_response (j : JVal) : Bool :=
  (match jsonLookup j ("account_number".toList) with | some (.str _) => true | _ => false) &&
  (match jsonLookup j ("statement_period".toList) with | some (.str _) => true | _ => false) &&
  (match jsonLookup j ("transactions".toList) with
   | some (.arr ts) => ts.all validateCbaTransactionEntry
   | _ => false)

/-- Modelled from the spec's words (§4.2): `debit` and `credit` must each be
null or a non-negative number.  Stated only to exhibit where
`validate_cba_json_response` departs from the specified schema. -/
def specAmountOk : Option JVal → Bool
  | some .null => true
  | some (.num q) => is_valid_amount q
  | _ => false

/-- The per-entry schema acceptance as the spec words it, differing from the
code only in the `debit`/`credit` typing. -/
def specSchemaEntryOk (t : JVal) : Bool :=
  (match jsonLookup t ("date".toList) with | some (.str s) => is_valid_iso_date s | _ => false) &&
  (match jsonLookup t ("description".toList) with | some (.str _) => true | _ => false) &&
  specAmountOk (jsonLookup t ("debit".toList)) &&
  specAmountOk (jsonLookup t ("credit".toList)) &&
  (match jsonLookup t ("balance".toList) with | some (.num q) => is_valid_amount q | _ => false)

/-- Top-level spec-worded schema acceptance. -/
def specSchemaAccepts (j : JVal) : Bool :=
  (match jsonLookup j ("account_number".toList) with | some (.str _) => true | _ => false) &&
  (match jsonLookup j ("statement_period".toList) with | some (.str _) => true | _ => false) &&
  (match jsonLookup j ("transactions".toList) with
   | some (.arr ts) => ts.all specSchemaEntryOk
   | _ => false)

/-! ## AI retry orchestration (`ai_service_parse_pdf`) -/

/-- Observable outcome of the retry loop: final success, provider calls made,
network requests issued by those calls, and total blocking delay in seconds
(`usleep(1000000 * 2^attempt)`). -/
structure RetryOutcome where
  success : Bool
  attempts : Nat
  requests : Nat
  delay : Nat
deriving DecidableEq, Repr

/-- The retry loop of `ai_service_parse_pdf` from attempt number `attempt`,
with fuel `maxRetries + 1 - attempt` (the exact number of loop entries left;
fuel 0 is the loop condition `attempt <= max_retries` failing).  The step
function is the provider dispatch: `none` is the `break` on an unsupported
provider, and `some (ok, r)` a call that issued `r` network requests and
succeeded iff `ok` (`result == 0` with a non-NULL response).  A failed attempt
below `max_retries` sleeps `2^attempt` seconds before the next. -/
def aiRetryLoopAux (step : Nat → Option (Bool × Nat)) (maxRetries : Nat) :
    Nat → Nat → RetryOutcome
  | 0, _ => ⟨false, 0, 0, 0⟩
  | fuel + 1, attempt =>
    if maxRetries < attempt then ⟨false, 0, 0, 0⟩
    else
      match step attempt with
      | none => ⟨false, 0, 0, 0⟩
      | some (true, r) => ⟨true, 1, r, 0⟩
      | some (false, r) =>
        if attempt < maxRetries then
          let rest := aiRetryLoopAux step maxRetries fuel (attempt + 1)
          ⟨rest.success, rest.attempts + 1, rest.requests + r, rest.delay + 2 ^ attempt⟩
        else ⟨false, 1, r, 0⟩

/-- The retry loop started at `attempt`. -/
def aiRetryLoopFrom (step : Nat → Option (Bool × Nat)) (maxRetries attempt : Nat) :
    RetryOutcome :=
  aiRetryLoopAux step maxRetries (maxRetries + 1 - attempt) attempt

/-- The configured providers of the dispatch. -/
inductive Provider
  | anthropic
  | openrouter
  | llamacpp
  | unsupported
deriving DecidableEq, Repr

/-- Embedding of `openrouter_call_api`: returns -1 before issuing any network request. -/
def openrouter_call_api : Bool × Nat := (false, 0)

/-- Embedding of `llamacpp_call_api`: returns -1 before issuing any network request. -/
def llamacpp_call_api : Bool × Nat := (false, 0)

/-- The provider dispatch inside the retry loop; the anthropic transport is an
oracle giving each attempt's outcome and request count, and an unknown
provider is the loop's `break`. -/
def providerStep (p : Provider) (anthropicOracle : Nat → Bool × Nat) (k : Nat) :
    Option (Bool × Nat) :=
  match p with
  | .anthropic => some (anthropicOracle k)
  | .openrouter => some openrouter_call_api
  | .llamacpp => some llamacpp_call_api
  | .unsupported => none

/-- The whole retry phase of `ai_service_parse_pdf`: `max_retries = 3`,
attempts numbered from 0. -/
def ai_service_parse_pdf_loop (p : Provider) (anthropicOracle : Nat → Bool × Nat) :
    RetryOutcome :=
  aiRetryLoopFrom (providerStep p anthropicOracle) 3 0

/-! ## Categorisation engine (`categoriser.c`) -/

/-- Result of `pcre2_match_8` on one description: non-negative return codes
are a match, `PCRE2_ERROR_NOMATCH` moves on, and any other error is logged and
also moves on to the next rule. -/
inductive MatchOutcome
  | matched
  | noMatch
  | error
deriving DecidableEq, Repr

/-- A compiled `CategoryRule`: `compiled = none` models `compiled_regex ==
NULL` (a pattern that failed to compile), which the loop skips.  The PCRE2
engine (compiled with `PCRE2_CASELESS` at configuration load) is abstracted as
the rule's match function on descriptions. -/
structure CategoryRule where
  compiled : Option (List Char → MatchOutcome)
  category : List Char

/-- Whether a rule matches a description: a present compiled pattern whose
match returns non-negatively. -/
def ruleMatches (r : CategoryRule) (d : List Char) : Bool :=
  match r.compiled with
  | some m => match m d with | .matched => true | _ => false
  | none => false

/-- The rule loop of `categorise_transaction`: first match in list order wins;
compile failures and match errors skip to the next rule; no match takes the
default. -/
def catRuleLoop (t : Transaction) (d : List Char) (defaultCategory : List Char) :
    List CategoryRule → Transaction
  | [] => { t with category := some defaultCategory }
  | r :: rest =>
    match r.compiled with
    | none => catRuleLoop t d defaultCategory rest
    | some m =>
      match m d with
      | .matched => { t with category := some r.category }
      | _ => catRuleLoop t d defaultCategory rest

/-- Embedding of `categorise_transaction`: an existing category is never overwritten; a
missing description takes the default immediately; otherwise the rules decide
(allocation for the category copy is assumed to succeed). -/
def categorise_transaction (t : Transaction) (rules : List CategoryRule)
    (defaultCategory : List Char) : Transaction :=
  if t.category.isSome then t
  else
    match t.description with
    | none => { t with category := some defaultCategory }
    | some d => catRuleLoop t d defaultCategory rules

/-! ## Concrete inputs used by the claims -/

/-- The end-to-end scenario-1 statement text. -/
def cbaScenario1Content : List Char :=
  ("Statement Period: 1 May 2025 - 31 Oct 2025\n" ++
   "30 May Salary ACME CORPORATION $5,000.00 $5,000.00 CR\n").toList

/-- An overdrawn-style CBA statement whose balance column carries `DR`, never
the `" CR"` in-credit suffix. -/
def cbaDrStatementContent : List Char :=
  ("Statement Period: 1 May 2025 - 31 Oct 2025\n" ++
   "30 May Purchase HARDWARE STORE 500.00 $4,500.00 DR\n").toList

/-- A CBA transaction line with no `" CR"` substring. -/
def cbaDrLine : List Char := ("30 May Purchase HARDWARE STORE 500.00 $4,500.00 DR").toList

/-- An AI response whose transaction carries a string-typed `debit`. -/
def aiBadDebitTypeResponse : JVal :=
  .obj [(("account_number").toList, .str ("06 4144 10181166").toList),
        (("statement_period").toList, .str ("1 May 2025 - 31 Oct 2025").toList),
        (("transactions").toList, .arr [
          .obj [(("date").toList, .str ("2025-06-30").toList),
                (("description").toList, .str ("Salary ACME CORPORATION").toList),
                (("debit").toList, .str ("abc").toList),
                (("credit").toList, .null),
                (("balance").toList, .num 0)]])]

/-- The scenario-2 AI response with a negative credit. -/
def aiNegativeCreditResponse : JVal :=
  .obj [(("account_number").toList, .str ("06 4144 10181166").toList),
        (("statement_period").toList, .str ("1 May 2025 - 31 Oct 2025").toList),
        (("transactions").toList, .arr [
          .obj [(("date").toList, .str ("2025-06-30").toList),
                (("description").toList, .str ("Salary ACME CORPORATION").toList),
                (("debit").toList, .null),
                (("credit").toList, .num (Rat.divInt (-5000) 1)),
                (("balance").toList, .num (Rat.divInt 5000 1))]])]

/-- An ANZ transaction line whose processed and transaction dates differ. -/
def anzLineEx : List Char :=
  ("07/07/2025 02/07/2025 8410 SPOTIFY SYDNEY $19.99 $2,147.91").toList

/-- The transaction the ANZ parser emits for `anzLineEx`. -/
def anzTxnEx : Transaction :=
  { date := some ("2025-07-07").toList,
    description := some ("SPOTIFY SYDNEY [Txn Date: 02/07/2025]").toList,
    debit := Rat.divInt 1999 100, credit := 0, category := none }

/-- An already-categorised transaction. -/
def catTxnEx : Transaction :=
  { date := some ("2025-05-30").toList, description := some ("Salary").toList,
    debit := 0, credit := Rat.divInt 5000 1, category := some ("Income").toList }

/-- An uncategorised transaction with a description. -/
def uncatTxnEx : Transaction :=
  { date := some ("2025-05-17").toList, description := some ("WOOLWORTHS METRO").toList,
    debit := Rat.divInt 1999 100, credit := 0, category := none }

/-- A rule whose pattern matches everything. -/
def catRuleA : CategoryRule :=
  { compiled := some (fun _ => .matched), category := ("Groceries").toList }

/-- A second rule whose pattern also matches everything. -/
def catRuleB : CategoryRule :=
  { compiled := some (fun _ => .matched), category := ("Dining").toList }

/-! ## Helper lemmas -/

theorem cbaLoop_all_unstarted (statementPeriod : Option (List Char)) :
    ∀ (lines : List (List Char)) (acc : List Transaction),
      (∀ l ∈ lines, cbaStartsTxn (l.dropWhile cIsSpace) = false) →
      cbaLoop statementPeriod lines none acc = acc := by
  intro lines
  induction lines with
  | nil => intro acc _; rfl
  | cons l rest ih =>
    intro acc h
    have hl : cbaStartsTxn (l.dropWhile cIsSpace) = false := h l (List.mem_cons_self l rest)
    have hr : ∀ l' ∈ rest, cbaStartsTxn (l'.dropWhile cIsSpace) = false :=
      fun l' hm => h l' (List.mem_cons_of_mem l hm)
    unfold cbaLoop
    by_cases he : l.dropWhile cIsSpace = []
    · simp only [he, if_pos rfl]
      exact ih acc hr
    · simp only [if_neg he, hl, Bool.false_eq_true, if_false]
      exact ih acc hr

theorem anzFold_all_skipped :
    ∀ (lines : List (List Char)) (acc : List Transaction),
      (∀ l ∈ lines, is_anz_transaction_line l = false) →
      lines.foldl anzFoldStep acc = acc := by
  intro lines
  induction lines with
  | nil => intro acc _; rfl
  | cons l rest ih =>
    intro acc h
    have hl : is_anz_transaction_line l = false := h l (List.mem_cons_self l rest)
    have step : anzFoldStep acc l = acc := by
      unfold anzFoldStep
      simp [hl]
    rw [List.foldl_cons, step]
    exact ih acc (fun l' hm => h l' (List.mem_cons_of_mem l hm))

theorem catRuleLoop_first_match (t : Transaction) (d : List Char) (dflt : List Char) :
    ∀ (pre : List CategoryRule) (r : CategoryRule) (post : List CategoryRule),
      (∀ r' ∈ pre, ruleMatches r' d = false) → ruleMatches r d = true →
      catRuleLoop t d dflt (pre ++ r :: post) = { t with category := some r.category } := by
  intro pre
  induction pre with
  | nil =>
    intro r post _ hr
    rw [List.nil_append]
    unfold ruleMatches at hr
    unfold catRuleLoop
    rcases hc : r.compiled with _ | m
    · rw [hc] at hr
      exact Bool.noConfusion (show false = true from hr)
    · rw [hc] at hr
      have hmd : (match m d with | MatchOutcome.matched => true | _ => false) = true := hr
      cases hm : m d
      · simp only [hm]
      · rw [hm] at hmd
        exact Bool.noConfusion (show true = false from hmd.symm)
      · rw [hm] at hmd
        exact Bool.noConfusion (show true = false from hmd.symm)
  | cons p pre ih =>
    intro r post h hr
    have hp : ruleMatches p d = false := h p (List.mem_cons_self p pre)
    have hrest : ∀ r' ∈ pre, ruleMatches r' d = false :=
      fun r' hm => h r' (List.mem_cons_of_mem p hm)
    rw [List.cons_append]
    unfold ruleMatches at hp
    unfold catRuleLoop
    rcases hc : p.compiled with _ | m
    · exact ih r post hrest hr
    · rw [hc] at hp
      have hmd : (match m d with | MatchOutcome.matched => true | _ => false) = false := hp
      cases hm : m d
      · rw [hm] at hmd
        exact Bool.noConfusion (show true = false from hmd)
      · simp only [hm]
        exact ih r post hrest hr
      · simp only [hm]
        exact ih r post hrest hr

theorem catRuleLoop_no_match (t : Transaction) (d : List Char) (dflt : List Char) :
    ∀ rules : List CategoryRule,
      (∀ r ∈ rules, ruleMatches r d = false) →
      catRuleLoop t d dflt rules = { t with category := some dflt } := by
  intro rules
  induction rules with
  | nil => intro _; rfl
  | cons r rest ih =>
    intro h
    have hr : ruleMatches r d = false := h r (List.mem_cons_self r rest)
    have hrest : ∀ r' ∈ rest, ruleMatches r' d = false :=
      fun r' hm => h r' (List.mem_cons_of_mem r hm)
    unfold ruleMatches at hr
    unfold catRuleLoop
    rcases hc : r.compiled with _ | m
    · exact ih hrest
    · rw [hc] at hr
      have hmd : (match m d with | MatchOutcome.matched => true | _ => false) = false := hr
      cases hm : m d
      · rw [hm] at hmd
        exact Bool.noConfusion (show true = false from hmd)
      · simp only [hm]
        exact ih hrest
      · simp only [hm]
        exact ih hrest

theorem aiRetryLoopAux_attempts_le (step : Nat → Option (Bool × Nat)) (maxRetries : Nat) :
    ∀ (fuel attempt : Nat), (aiRetryLoopAux step maxRetries fuel attempt).attempts ≤ fuel := by
  intro fuel
  induction fuel with
  | zero => intro attempt; exact Nat.le_refl 0
  | succ n ih =>
    intro attempt
    unfold aiRetryLoopAux
    split
    · exact Nat.zero_le _
    · split
      · exact Nat.zero_le _
      · exact Nat.succ_le_succ (Nat.zero_le n)
      · split
        · exact Nat.succ_le_succ (ih (attempt + 1))
        · exact Nat.succ_le_succ (Nat.zero_le n)

/-! ## Claim theorems -/

set_option maxRecDepth 10000

/-- C1 (code evaluation at the failing input): on the scenario-1 statement the
CBA parser emits exactly one transaction with the claimed date `2025-05-30`
and description `Salary ACME CORPORATION`, but classifies the
currency-marker-prefixed amount before the balance as a **debit** of 5000.00
with credit 0 — the claim (and the spec's scenario 1) requires credit 5000.00
and debit 0, which also matches the code's own column comments. -/
theorem C1_cba_scenario_code_eval :
    parse_cba_statement (some cbaScenario1Content) =
      some { accountNumber := none,
             statementPeriod := some (("1 May 2025 - 31 Oct 2025").toList),
             transactions := [{ date := some (("2025-05-30").toList),
                                description := some (("Salary ACME CORPORATION").toList),
                                debit := 5000, credit := 0, category := none }],
             errorMessage := none } := by
  decide

/-- C2: every day/month-only date resolved by `parse_cba_date` carries the
statement period's end year exactly when the period's start and end years
differ and the month is 1..6, and the start year in every other case (months
7..12, or a single-year period). -/
theorem C2_cba_year_resolution (dateStr : List Char) (statementPeriod : Option (List Char))
    (y : Int) (m : Nat) (d : Int)
    (h : parse_cba_date dateStr statementPeriod = some (y, m, d)) :
    y = (if m ≤ 6 ∧ (periodYears statementPeriod).1 ≠ (periodYears statementPeriod).2
         then (periodYears statementPeriod).2
         else (periodYears statementPeriod).1) := by
  unfold parse_cba_date at h
  split at h
  · exact Option.noConfusion h
  · split at h
    · exact Option.noConfusion h
    · split at h
      · exact Option.noConfusion h
      · simp only [ne_eq] at h
        split at h
        next hA =>
          split at h
          · have hinj := Option.some.inj h
            simp only [Prod.mk.injEq] at hinj
            obtain ⟨hy1, hm1, _⟩ := hinj
            subst hm1
            rw [← hy1, if_pos hA]
          · exact Option.noConfusion h
        next hA =>
          split at h
          · have hinj := Option.some.inj h
            simp only [Prod.mk.injEq] at hinj
            obtain ⟨hy1, hm1, _⟩ := hinj
            subst hm1
            rw [← hy1, if_neg hA]
          · exact Option.noConfusion h

/-- Witness for C2: a concrete first-half-of-year date in a two-year period
resolves to the end year. -/
theorem C2_cba_year_resolution_witness :
    parse_cba_date (("30 May").toList) (some (("1 Nov 2024 - 30 Apr 2025").toList)) =
      some (2025, 5, 30) ∧
    (2025 : Int) =
      (if 5 ≤ 6 ∧ (periodYears (some (("1 Nov 2024 - 30 Apr 2025").toList))).1 ≠
          (periodYears (some (("1 Nov 2024 - 30 Apr 2025").toList))).2
       then (periodYears (some (("1 Nov 2024 - 30 Apr 2025").toList))).2
       else (periodYears (some (("1 Nov 2024 - 30 Apr 2025").toList))).1) :=
  ⟨by decide,
   C2_cba_year_resolution (("30 May").toList) (some (("1 Nov 2024 - 30 Apr 2025").toList))
     2025 5 30 (by decide)⟩

/-- C3 (code evaluation at the failing input): `validate_cba_json_response`
accepts a response whose transaction `debit` is the string `"abc"` — neither
null nor a number — while the schema as the spec words it rejects that
response; the validator checks `debit`/`credit` only with
`cJSON_IsNumber(x) && !is_valid_amount(x)`, so a non-null, non-number value
slips through.  The scenario-2 negative-credit response is rejected by both,
as the claim states for that part. -/
theorem C3_validator_accepts_nonnumeric_debit :
    validate_cba_json_response aiBadDebitTypeResponse = true ∧
    specSchemaAccepts aiBadDebitTypeResponse = false ∧
    validate_cba_json_response aiNegativeCreditResponse = false ∧
    specSchemaAccepts aiNegativeCreditResponse = false := by
  decide

/-- C4 (counterexample): for the openrouter provider, which never issues a
network request, the extraction entry point still runs all four attempts and
blocks for 1+2+4 = 7 time-units of backoff before failing — it does not
return failure immediately without retry backoff delay as the claim states. -/
theorem C4_counterexample_backoff_not_skipped :
    (ai_service_parse_pdf_loop Provider.openrouter (fun _ => (false, 0))).delay = 7 ∧
    ¬ (ai_service_parse_pdf_loop Provider.openrouter (fun _ => (false, 0))).delay = 0 ∧
    (ai_service_parse_pdf_loop Provider.openrouter (fun _ => (false, 0))).attempts = 4 := by
  decide

/-- C4 (amended): the openrouter and llamacpp provider call functions do
return failure without issuing any network request, but
`ai_service_parse_pdf` treats each such failure as transient: it makes all 4
attempts and incurs the full 1+2+4 = 7 time-units of backoff delay before
returning failure. -/
theorem C4_unsupported_providers_fail_after_full_retry (p : Provider)
    (oracle : Nat → Bool × Nat)
    (hp : p = Provider.openrouter ∨ p = Provider.llamacpp) :
    ai_service_parse_pdf_loop p oracle =
      { success := false, attempts := 4, requests := 0, delay := 7 } := by
  rcases hp with h | h <;> subst h <;> rfl

/-- Witness for C4: the amended statement at the openrouter provider. -/
theorem C4_unsupported_providers_witness :
    ai_service_parse_pdf_loop Provider.openrouter (fun _ => (false, 1)) =
      { success := false, attempts := 4, requests := 0, delay := 7 } :=
  C4_unsupported_providers_fail_after_full_retry Provider.openrouter (fun _ => (false, 1))
    (Or.inl rfl)

/-- C5: the retry loop makes at most 4 attempts; when the first two attempts
fail and the third succeeds it returns success after exactly 3 attempts with
total blocking delay 1+2 time-units; when every attempt fails it makes 4
attempts with total delay 1+2+4 time-units; and the cumulative delays after
success at attempts 1 and 2 (0 and 1 time-units) pin the individual gaps
between consecutive attempts to exactly 1, 2 and 4 time-units. -/
theorem C5_retry_backoff_schedule :
    (∀ step : Nat → Option (Bool × Nat), (aiRetryLoopFrom step 3 0).attempts ≤ 4) ∧
    (∀ oracle : Nat → Bool × Nat,
      (oracle 0).1 = false → (oracle 1).1 = false → (oracle 2).1 = true →
      (ai_service_parse_pdf_loop Provider.anthropic oracle).success = true ∧
      (ai_service_parse_pdf_loop Provider.anthropic oracle).attempts = 3 ∧
      (ai_service_parse_pdf_loop Provider.anthropic oracle).delay = 1 + 2) ∧
    (∀ oracle : Nat → Bool × Nat,
      (oracle 0).1 = false → (oracle 1).1 = false → (oracle 2).1 = false →
      (oracle 3).1 = false →
      (ai_service_parse_pdf_loop Provider.anthropic oracle).success = false ∧
      (ai_service_parse_pdf_loop Provider.anthropic oracle).attempts = 4 ∧
      (ai_service_parse_pdf_loop Provider.anthropic oracle).delay = 1 + 2 + 4) ∧
    (∀ oracle : Nat → Bool × Nat,
      (oracle 0).1 = true →
      (ai_service_parse_pdf_loop Provider.anthropic oracle).attempts = 1 ∧
      (ai_service_parse_pdf_loop Provider.anthropic oracle).delay = 0) ∧
    (∀ oracle : Nat → Bool × Nat,
      (oracle 0).1 = false → (oracle 1).1 = true →
      (ai_service_parse_pdf_loop Provider.anthropic oracle).attempts = 2 ∧
      (ai_service_parse_pdf_loop Provider.anthropic oracle).delay = 1) := by
  refine ⟨fun step => aiRetryLoopAux_attempts_le step 3 4 0,
          fun oracle h0 h1 h2 => ?_, fun oracle h0 h1 h2 h3 => ?_,
          fun oracle h0 => ?_, fun oracle h0 h1 => ?_⟩
  · rcases ho0 : oracle 0 with ⟨b0, r0⟩
    rcases ho1 : oracle 1 with ⟨b1, r1⟩
    rcases ho2 : oracle 2 with ⟨b2, r2⟩
    rw [ho0] at h0; rw [ho1] at h1; rw [ho2] at h2
    have hb0 : b0 = false := h0
    have hb1 : b1 = false := h1
    have hb2 : b2 = true := h2
    subst hb0; subst hb1; subst hb2
    refine ⟨?_, ?_, ?_⟩ <;>
      simp [ai_service_parse_pdf_loop, aiRetryLoopFrom, aiRetryLoopAux, providerStep,
            ho0, ho1, ho2]
  · rcases ho0 : oracle 0 with ⟨b0, r0⟩
    rcases ho1 : oracle 1 with ⟨b1, r1⟩
    rcases ho2 : oracle 2 with ⟨b2, r2⟩
    rcases ho3 : oracle 3 with ⟨b3, r3⟩
    rw [ho0] at h0; rw [ho1] at h1; rw [ho2] at h2; rw [ho3] at h3
    have hb0 : b0 = false := h0
    have hb1 : b1 = false := h1
    have hb2 : b2 = false := h2
    have hb3 : b3 = false := h3
    subst hb0; subst hb1; subst hb2; subst hb3
    refine ⟨?_, ?_, ?_⟩ <;>
      simp [ai_service_parse_pdf_loop, aiRetryLoopFrom, aiRetryLoopAux, providerStep,
            ho0, ho1, ho2, ho3]
  · rcases ho0 : oracle 0 with ⟨b0, r0⟩
    rw [ho0] at h0
    have hb0 : b0 = true := h0
    subst hb0
    refine ⟨?_, ?_⟩ <;>
      simp [ai_service_parse_pdf_loop, aiRetryLoopFrom, aiRetryLoopAux, providerStep, ho0]
  · rcases ho0 : oracle 0 with ⟨b0, r0⟩
    rcases ho1 : oracle 1 with ⟨b1, r1⟩
    rw [ho0] at h0; rw [ho1] at h1
    have hb0 : b0 = false := h0
    have hb1 : b1 = true := h1
    subst hb0; subst hb1
    refine ⟨?_, ?_⟩ <;>
      simp [ai_service_parse_pdf_loop, aiRetryLoopFrom, aiRetryLoopAux, providerStep,
            ho0, ho1]

/-- Witness for C5: a concrete oracle that fails twice and succeeds on the
third attempt. -/
theorem C5_retry_backoff_schedule_witness :
    (ai_service_parse_pdf_loop Provider.anthropic (fun k => (decide (2 ≤ k), 0))).success =
      true ∧
    (ai_service_parse_pdf_loop Provider.anthropic (fun k => (decide (2 ≤ k), 0))).attempts =
      3 ∧
    (ai_service_parse_pdf_loop Provider.anthropic (fun k => (decide (2 ≤ k), 0))).delay =
      1 + 2 :=
  C5_retry_backoff_schedule.2.1 (fun k => (decide (2 ≤ k), 0)) rfl rfl rfl

/-- C6: a NULL content argument is the only input failing either text parser;
every non-NULL content gives a `ParseResult` with no error set, and content
with no recognisable transaction lines (the empty document included) gives an
empty transaction sequence. -/
theorem C6_null_only_failure :
    (parse_cba_statement none = none ∧ parse_anz_statement none = none) ∧
    (∀ cs : List Char,
      (parse_cba_statement (some cs)).map ParseResult.errorMessage = some none ∧
      (parse_anz_statement (some cs)).map ParseResult.errorMessage = some none) ∧
    (∀ cs : List Char,
      (∀ l ∈ splitLines cs, cbaStartsTxn (l.dropWhile cIsSpace) = false) →
      (parse_cba_statement (some cs)).map ParseResult.transactions = some []) ∧
    (∀ cs : List Char,
      (∀ l ∈ splitLines cs, is_anz_transaction_line l = false) →
      (parse_anz_statement (some cs)).map ParseResult.transactions = some []) := by
  refine ⟨⟨rfl, rfl⟩, fun cs => ⟨rfl, rfl⟩, fun cs h => ?_, fun cs h => ?_⟩
  · rw [show parse_cba_statement (some cs) =
        some { accountNumber := extract_account_number cs,
               statementPeriod := extract_statement_period cs,
               transactions :=
                 cbaLoop (extract_statement_period cs) (splitLines cs) none [],
               errorMessage := none } from rfl]
    rw [cbaLoop_all_unstarted (extract_statement_period cs) (splitLines cs) [] h]
    rfl
  · rw [show parse_anz_statement (some cs) =
        some { accountNumber := extract_anz_account_number cs,
               statementPeriod := none,
               transactions := (splitLines cs).foldl anzFoldStep [],
               errorMessage := none } from rfl]
    rw [anzFold_all_skipped (splitLines cs) [] h]
    rfl

/-- Witness for C6: the empty document yields zero transactions from both
parsers. -/
theorem C6_null_only_failure_witness :
    (parse_cba_statement (some [])).map ParseResult.transactions = some [] ∧
    (parse_anz_statement (some [])).map ParseResult.transactions = some [] :=
  ⟨C6_null_only_failure.2.2.1 [] (by decide), C6_null_only_failure.2.2.2 [] (by decide)⟩

/-- C7: a transaction that already carries a category is returned unchanged by
categorisation, whatever the rule list and default are; iterating the
operation any number of times therefore changes nothing. -/
theorem C7_categorise_never_overwrites (t : Transaction) (rules : List CategoryRule)
    (defaultCategory : List Char) (h : t.category.isSome) :
    categorise_transaction t rules defaultCategory = t := by
  unfold categorise_transaction
  simp [h]

/-- Witness for C7: an already-categorised transaction is untouched even by an
always-matching rule. -/
theorem C7_categorise_never_overwrites_witness :
    categorise_transaction catTxnEx [catRuleA] (("Default").toList) = catTxnEx :=
  C7_categorise_never_overwrites catTxnEx [catRuleA] (("Default").toList) rfl

/-- C8: with no category present and a description, the first rule in list
order that matches the description supplies the category — in particular when
two or more rules match, the earliest wins — and when no rule matches, the
default category is assigned. -/
theorem C8_first_matching_rule_wins (t : Transaction) (d : List Char)
    (defaultCategory : List Char) :
    (∀ (pre : List CategoryRule) (r : CategoryRule) (post : List CategoryRule),
       t.category = none → t.description = some d →
       (∀ r' ∈ pre, ruleMatches r' d = false) → ruleMatches r d = true →
       (categorise_transaction t (pre ++ r :: post) defaultCategory).category =
         some r.category) ∧
    (∀ rules : List CategoryRule,
       t.category = none → t.description = some d →
       (∀ r ∈ rules, ruleMatches r d = false) →
       (categorise_transaction t rules defaultCategory).category = some defaultCategory) := by
  constructor
  · intro pre r post hcat hdesc hpre hr
    unfold categorise_transaction
    rw [hcat, hdesc]
    show (catRuleLoop t d defaultCategory (pre ++ r :: post)).category = some r.category
    rw [catRuleLoop_first_match t d defaultCategory pre r post hpre hr]
  · intro rules hcat hdesc hnone
    unfold categorise_transaction
    rw [hcat, hdesc]
    show (catRuleLoop t d defaultCategory rules).category = some defaultCategory
    rw [catRuleLoop_no_match t d defaultCategory rules hnone]

/-- Witness for C8: two rules both match the description; the transaction
receives the category of the first, and an empty rule list falls back to the
default. -/
theorem C8_first_matching_rule_wins_witness :
    (categorise_transaction uncatTxnEx [catRuleA, catRuleB] (("Default").toList)).category =
      some (("Groceries").toList) ∧
    (categorise_transaction uncatTxnEx [] (("Default").toList)).category =
      some (("Default").toList) :=
  ⟨(C8_first_matching_rule_wins uncatTxnEx (("WOOLWORTHS METRO").toList)
      (("Default").toList)).1 [] catRuleA [catRuleB] rfl rfl (by simp) rfl,
   (C8_first_matching_rule_wins uncatTxnEx (("WOOLWORTHS METRO").toList)
      (("Default").toList)).2 [] rfl rfl (by simp)⟩

/-- C9: every transaction the ANZ line processor emits takes its date from the
ISO form of the first (processed-date) token, and its description carries the
`" [Txn Date: ...]"` note with the second (transaction-date) token exactly
when the two date tokens differ, staying unmodified when they are equal. -/
theorem C9_anz_processed_date_and_note (line0 : List Char) (t : Transaction)
    (h : process_anz_transaction_line line0 = some t) :
    ∃ pd td amountStr desc dc iso,
      anzFields (line0.dropWhile cIsSpace) = some (pd, td, amountStr, desc) ∧
      parse_anz_amount amountStr = some dc ∧
      parse_anz_date pd = some iso ∧
      t = { date := some iso,
            description := some (if pd ≠ td then desc ++ anzTxnDateNote td else desc),
            debit := dc.1, credit := dc.2, category := none } := by
  unfold process_anz_transaction_line at h
  split at h
  · exact Option.noConfusion h
  split at h
  · exact Option.noConfusion h
  rename_i pd td amountStr desc hf
  split at h
  · exact Option.noConfusion h
  rename_i dc ha
  split at h
  · exact Option.noConfusion h
  rename_i iso hd
  exact ⟨pd, td, amountStr, desc, dc, iso, hf, ha, hd, (Option.some.inj h).symm⟩

/-- Witness for C9: the two date tokens differ on `anzLineEx`, and the emitted
transaction is dated by the first token with the note appended. -/
theorem C9_anz_processed_date_and_note_witness :
    process_anz_transaction_line anzLineEx = some anzTxnEx ∧
    ∃ pd td amountStr desc dc iso,
      anzFields (anzLineEx.dropWhile cIsSpace) = some (pd, td, amountStr, desc) ∧
      parse_anz_amount amountStr = some dc ∧
      parse_anz_date pd = some iso ∧
      anzTxnEx = { date := some iso,
                   description := some (if pd ≠ td then desc ++ anzTxnDateNote td else desc),
                   debit := dc.1, credit := dc.2, category := none } :=
  ⟨by decide, C9_anz_processed_date_and_note anzLineEx anzTxnEx (by decide)⟩

/-- C10: a CBA transaction line with no `" CR"` substring is silently
discarded (no transaction is added), and a whole statement whose balance
column uses `DR` instead of the `CR` in-credit suffix parses to a successful
result with zero transactions. -/
theorem C10_cr_anchor_required :
    (∀ (line : List Char) (statementPeriod : Option (List Char)),
       findSub line spaceCR = none →
       process_cba_transaction_line line statementPeriod = none) ∧
    parse_cba_statement (some cbaDrStatementContent) =
      some { accountNumber := none,
             statementPeriod := some (("1 May 2025 - 31 Oct 2025").toList),
             transactions := [], errorMessage := none } := by
  constructor
  · intro line statementPeriod h
    unfold process_cba_transaction_line
    simp only [h]
    repeat' split
    all_goals rfl
  · decide

/-- Witness for C10: the discard at a concrete CR-less line. -/
theorem C10_cr_anchor_required_witness :
    findSub cbaDrLine spaceCR = none ∧
    process_cba_transaction_line cbaDrLine none = none :=
  ⟨by decide, C10_cr_anchor_required.1 cbaDrLine none (by decide)⟩

end SmProc
